import Mathlib

/-!
Verification of the asynchronous batch orchestration and result-correlation
engine of the Auto_dev service.

The Lean definitions below are a shallow embedding of the Python sources:

* `config.py`            — configuration defaults (`Settings`, `settings`);
* `jobs/batch_tracker.py`— `ActiveBatchLimiter.register` / `finish`;
* `tasks.py`             — `_calculate_dynamic_interval`, `orchestrator_task`,
  `_process_queue_async`, `_check_batch_status_async`,
  `_handle_completed_batch_async`, `_send_batch_webhook`,
  `_check_and_send_webhook_if_ready`;
* `validators.py`        — `assert_batch_limits`;
* `openai_client.py`     — `start_batch` (limit checking and submission order);
* `delivery.py`          — `post_webhook`;
* `utils.py`             — `backoff`.

External collaborators (the inference service, Redis, the HTTP transport, the
HMAC primitive, request-body construction) are modelled as oracle inputs or
opaque data, following the spec's OUT OF SCOPE list.  Stateful code is
modelled by explicit state passing; Redis keys live in association lists and
queues in Lean lists (head = Redis list head).
-/

namespace AutoDev

/-! ### Configuration (`config.py`, class `Settings`)

Default values of the fields the core logic reads.  `base_delay` is a float
in the source (`2.0` seconds); it is exactly representable, modelled as `ℚ`.
-/

structure Settings where
  active_batch_limit : Nat
  per_key_batch_limit : Nat
  line_size_limit : Nat
  file_size_limit : Nat
  max_lines_per_batch : Nat
  max_retries : Nat
  base_delay : Rat
deriving Repr, DecidableEq

def settings : Settings :=
  ⟨10, 2, 1048576, 200 * 1024 * 1024, 50000, 5, 2⟩

/-! ### Admission Limiter (`jobs/batch_tracker.py`, `ActiveBatchLimiter`)

The Python class keeps two sets: `_global : set[str]` and
`_by_key : defaultdict[str, set[str]]`.  `register` raises
`HTTPException(429, headers={"Retry-After": "60"})` when either ceiling is
reached, and otherwise adds the batch id to both sets; `finish` discards the
id from both sets.  Sets are modelled as `Finset String`, the defaultdict as
a total function returning `∅` for untouched keys, and the raised exception
as the `Except.error` branch carrying the HTTP status, the Retry-After value
and the detail string.
-/

structure LimiterState where
  glob : Finset String
  by_key : String → Finset String

structure CapacityErr where
  http_status : Nat
  retry_after : Nat
  detail : String
deriving Repr, DecidableEq

def register (s : LimiterState) (api_key batch_id : String) :
    Except CapacityErr LimiterState :=
  if settings.active_batch_limit ≤ s.glob.card then
    Except.error ⟨429, 60, "active_batch_limit"⟩
  else if settings.per_key_batch_limit ≤ (s.by_key api_key).card then
    Except.error ⟨429, 60, "per_key_batch_limit"⟩
  else
    Except.ok
      { glob := insert batch_id s.glob
        by_key := fun k =>
          if k = api_key then insert batch_id (s.by_key k) else s.by_key k }

def finish (s : LimiterState) (api_key batch_id : String) : LimiterState :=
  { glob := s.glob.erase batch_id
    by_key := fun k =>
      if k = api_key then (s.by_key k).erase batch_id else s.by_key k }

/-- One call against the limiter.  A failed `register` raises in Python and
therefore leaves the state unchanged. -/
inductive LimiterOp where
  | reg (api_key batch_id : String)
  | fin (api_key batch_id : String)

def applyOp (s : LimiterState) : LimiterOp → LimiterState
  | LimiterOp.reg k b =>
      match register s k b with
      | Except.ok s2 => s2
      | Except.error _ => s
  | LimiterOp.fin k b => finish s k b

def runOps (s : LimiterState) (ops : List LimiterOp) : LimiterState :=
  ops.foldl applyOp s

/-- Invariant of the Admission Record (spec section 3): the global set never
exceeds the global ceiling and no per-key set exceeds the per-key ceiling. -/
def limiterInv (s : LimiterState) : Prop :=
  s.glob.card ≤ settings.active_batch_limit ∧
  ∀ k, (s.by_key k).card ≤ settings.per_key_batch_limit

/-! ### Dynamic interval (`tasks.py`, `_calculate_dynamic_interval`) -/

def calculate_dynamic_interval (queue_depth : Nat) : Rat :=
  if 1000 < queue_depth then 5
  else if 100 < queue_depth then 10
  else 30

/-! ### Callback delivery (`delivery.py`, `post_webhook`; `utils.py`, `backoff`)

`post_webhook` loops `for attempt in range(settings.max_retries)`: it POSTs,
returns on any status code in `range(200, 300)`, and otherwise (non-2xx
status or raised exception, both recorded) awaits `backoff(attempt)` and
retries; after the loop it raises `RuntimeError("webhook_delivery_failed...")`.
`backoff(attempt)` sleeps `2 ** attempt` seconds.  The HTTP transport is an
oracle `Nat → HttpOutcome` giving the outcome of each attempt; the model
returns the trace of POSTs issued and sleeps awaited, plus the final result.
-/

/-- Outcome of one POST attempt: a status code, or a raised transport
exception (timeouts included — `httpx` raises them). -/
inductive HttpOutcome where
  | status (code : Nat)
  | exc (msg : String)
deriving Repr, DecidableEq

def backoff (attempt : Nat) : Nat := 2 ^ attempt

def is2xx : HttpOutcome → Bool
  | HttpOutcome.status code => decide (200 ≤ code ∧ code < 300)
  | HttpOutcome.exc _ => false

structure DeliveryTrace where
  posts : Nat
  sleeps : List Nat
  delivered : Bool
deriving Repr, DecidableEq

/-- The retry loop of `post_webhook`, parameterised by the current `attempt`
index and the number of remaining loop iterations. -/
def post_webhook_from (outcomes : Nat → HttpOutcome) (attempt : Nat) :
    Nat → DeliveryTrace
  | 0 => ⟨0, [], false⟩
  | n + 1 =>
      if is2xx (outcomes attempt) then ⟨1, [], true⟩
      else
        let rest := post_webhook_from outcomes (attempt + 1) n
        ⟨rest.posts + 1, backoff attempt :: rest.sleeps, rest.delivered⟩

def post_webhook (outcomes : Nat → HttpOutcome) : DeliveryTrace :=
  post_webhook_from outcomes 0 settings.max_retries

/-! ### Batch size ceilings (`validators.py`, `assert_batch_limits`;
`openai_client.py`, `start_batch`)

`start_batch` serialises every line with `json.dumps` (external JSON
serialiser; the model receives the serialised lines), writes them to a
temporary `.jsonl` file — one line plus a `"\n"` terminator each, so the
file size is the sum of the UTF-8 byte lengths plus one per line — and calls
`assert_batch_limits(size, len(lines), serialized_lines)` BEFORE uploading
the file and creating the bulk job.  `assert_batch_limits` raises
`HTTPException(400, ...)` on the first violated ceiling.
-/

inductive BatchLimitErr where
  | batch_lines_limit
  | batch_size_limit
  | line_size_limit
deriving Repr, DecidableEq

def assert_batch_limits (jsonl_size : Nat) (line_count : Nat)
    (lines_data : List String) : Option BatchLimitErr :=
  if settings.max_lines_per_batch < line_count then
    some BatchLimitErr.batch_lines_limit
  else if settings.file_size_limit < jsonl_size then
    some BatchLimitErr.batch_size_limit
  else if lines_data.any (fun line => settings.line_size_limit < line.utf8ByteSize) then
    some BatchLimitErr.line_size_limit
  else
    none

/-- Byte size of the `.jsonl` file written by `start_batch`: each serialised
line followed by one newline byte. -/
def jsonl_size (serialized_lines : List String) : Nat :=
  (serialized_lines.map (fun line => line.utf8ByteSize + 1)).sum

/-- External side effects of `start_batch` after the ceiling check passes:
the file upload and the bulk-job creation, in order. -/
inductive BatchAction where
  | upload_file
  | create_batch (batch_id : String)
deriving Repr, DecidableEq

/-- Model of `start_batch` with the serialised lines as input and the id assigned by
the external service as an oracle.  On a ceiling violation the
`HTTPException` propagates: no upload happens and no job is created. -/
def start_batch (serialized_lines : List String) (assigned_id : String) :
    Except BatchLimitErr (String × List BatchAction) :=
  match assert_batch_limits (jsonl_size serialized_lines)
      serialized_lines.length serialized_lines with
  | some e => Except.error e
  | none =>
      Except.ok (assigned_id,
        [BatchAction.upload_file, BatchAction.create_batch assigned_id])

/-! ### Data model of the pipeline (`tasks.py`)

A lot dict as enqueued by `submit_lots_for_processing` / built in `app.py`.
Only the fields the orchestration core reads are modelled: `lot_id`,
`webhook`, `languages` and `immediate_languages`.  The remaining fields
(`additional_info`, `images`, `priority_language`) feed request-body
construction, an external collaborator, and never influence the control flow
embedded here.  A missing `webhook` key is modelled by `""` (both are falsy
under the source's `not original_lot.get('webhook')` test) and a missing
`immediate_languages` key by `[]` (the source reads it with
`.get('immediate_languages', [])`).
-/

structure LotData where
  lot_id : String
  webhook : String
  languages : List String
  immediate_languages : List String
deriving Repr, DecidableEq

/-- A translation Work Unit as pushed to `TRANSLATE_PENDING_QUEUE`. -/
structure TranslateTask where
  custom_id : String
  text : String
  lang : String
  original_lot : LotData
deriving Repr, DecidableEq

/-- Value stored in a Bulk Job's `custom_id_map`: the vision queue stores the
lot dict itself, the translate queue stores the translation task dict. -/
inductive TaskData where
  | visionTask (lot : LotData)
  | translateTask (t : TranslateTask)
deriving Repr, DecidableEq

inductive JobType where
  | vision
  | translate
deriving Repr, DecidableEq

/-- The value stored under `batch_to_custom_ids:<batch_id>`. -/
structure BatchRecord where
  job_type : JobType
  custom_id_map : List (String × TaskData)
deriving Repr, DecidableEq

structure DamageDesc where
  language : String
  damages : String
deriving Repr, DecidableEq

structure LotOut where
  lot_id : String
  descriptions : List DamageDesc
deriving Repr, DecidableEq

/-- One entry of a callback payload's `lots` list: either a success entry
(`LotOut`, schema `schemas.py`) or an error entry
`{lot_id, error: {message, code}}`. -/
inductive LotPayload where
  | ok (lot : LotOut)
  | failed (lot_id message code : String)
deriving Repr, DecidableEq

/-- A callback payload (`ResponseOut` or the error-response dict): signature,
version `"1.0.0"`, and the lots list. -/
structure WebhookOut where
  signature : String
  version : String
  lots : List LotPayload
deriving Repr, DecidableEq

/-- Languages carried by a callback payload, in order, across its success
entries. -/
def WebhookOut.langs (w : WebhookOut) : List String :=
  (w.lots.map (fun lp =>
    match lp with
    | LotPayload.ok lot => lot.descriptions.map (fun d => d.language)
    | LotPayload.failed _ _ _ => [])).flatten

/-- The HMAC signature primitive (`signature.py`, `calc_signature`) is an
external collaborator per the spec's OUT OF SCOPE list; its digest is opaque
to the orchestration logic and modelled as an uninterpreted constant. -/
def calc_signature (_lots : List LotPayload) : String :=
  "hmac-sha256-digest"

/-! ### Shared state (the Redis keys the core reads and writes) -/

structure PipeState where
  /-- Keys `result:<lot_id>:<lang>` (Partial Results; the 172800 s TTL is
  retention policy, not control flow). -/
  results : List (String × String)
  /-- Queue `translate_pending_queue` (head first). -/
  translate_queue : List TranslateTask
  /-- Queue `vision_pending_queue` (head first). -/
  vision_queue : List LotData
  /-- Counter `active_batch_count` (`INCR`/`DECR`, may go negative). -/
  active_batch_count : Int
  /-- Keys `batch_to_custom_ids:<batch_id>`. -/
  batch_maps : List (String × BatchRecord)
  /-- Key `dynamic_batch_last_run` (`none` when absent or expired). -/
  last_run : Option Rat
  /-- Key `dynamic_batch_interval` (monitoring value). -/
  current_interval : Option Rat
  /-- Trace of `post_webhook_task.delay(url, payload)` calls, in order. -/
  webhooks : List (String × WebhookOut)
deriving Repr, DecidableEq

def rget (kvs : List (String × String)) (k : String) : Option String :=
  (kvs.find? (fun p => p.1 == k)).map (fun p => p.2)

def rset (kvs : List (String × String)) (k v : String) :
    List (String × String) :=
  (k, v) :: kvs.filter (fun p => p.1 != k)

def lookupTask (m : List (String × TaskData)) (k : String) : Option TaskData :=
  (m.find? (fun p => p.1 == k)).map (fun p => p.2)

def lookupBatch (m : List (String × BatchRecord)) (k : String) :
    Option BatchRecord :=
  (m.find? (fun p => p.1 == k)).map (fun p => p.2)

/-- The Python default `{}` of `custom_id_map.get(lot_id, {})`: every
`.get` on it yields a falsy/empty value. -/
def emptyLot : LotData := ⟨"", "", [], []⟩

/-- Lookup `custom_id_map.get(lot_id, {})` of the vision branch. -/
def getVisionLot (m : List (String × TaskData)) (lot_id : String) : LotData :=
  match lookupTask m lot_id with
  | some (TaskData.visionTask lot) => lot
  | _ => emptyLot

/-- Lookup `custom_id_map[custom_id]['original_lot']` of the translate branch (the
source indexes directly and would raise `KeyError` on a missing id; by the
Bulk Job invariant the map covers every submitted unit, and all theorems
below use covering maps). -/
def getOriginalLot (m : List (String × TaskData)) (custom_id : String) :
    LotData :=
  match lookupTask m custom_id with
  | some (TaskData.translateTask t) => t.original_lot
  | _ => emptyLot

/-- Reading `.get('webhook')` on a stored task dict: lot dicts carry a `webhook`
key, translation task dicts do not (their keys are `custom_id`, `text`,
`lang`, `original_lot`), so the error branch finds no webhook for them. -/
def TaskData.webhookField : TaskData → String
  | TaskData.visionTask lot => lot.webhook
  | TaskData.translateTask _ => ""

/-- Python `custom_id.split(":")`. -/
def splitColonAux (acc : List Char) : List Char → List String
  | [] => [String.mk acc.reverse]
  | c :: rest =>
      if c = ':' then String.mk acc.reverse :: splitColonAux [] rest
      else splitColonAux (c :: acc) rest

def splitColon (s : String) : List String :=
  splitColonAux [] s.data

/-- The unpacking `_, lot_id, lang = custom_id.split(":")` (raises in the
source unless the id has exactly three `:`-separated parts; theorems only
use well-formed `tr:<lot_id>:<lang>` ids). -/
def splitCustomId (cid : String) : String × String :=
  match splitColon cid with
  | [_, lot_id, lang] => (lot_id, lang)
  | _ => ("", "")

def resultKey (lot_id lang : String) : String :=
  "result:" ++ lot_id ++ ":" ++ lang

/-! ### Result correlation and webhook senders (`tasks.py`) -/

/-- Model of `_check_and_send_webhook_if_ready(lot_id, original_lot)`: determine the
languages to check (all requested ones, or the ones not already delivered by
the immediate fast path), `MGET` their result keys, and if all are present
post one webhook carrying exactly those languages in order. -/
def check_and_send_webhook_if_ready (st : PipeState) (lot_id : String)
    (original_lot : LotData) : PipeState :=
  let languages := original_lot.languages
  let immediate_languages := original_lot.immediate_languages
  let languages_to_check :=
    if immediate_languages.isEmpty then languages
    else languages.filter (fun lang => !immediate_languages.contains lang)
  if languages_to_check.isEmpty then st
  else
    let results := languages_to_check.map
      (fun lang => rget st.results (resultKey lot_id lang))
    if results.all Option.isSome then
      let descriptions := (languages_to_check.zip results).map
        (fun p => DamageDesc.mk p.1 (p.2.getD ""))
      let response_lots := [LotPayload.ok ⟨lot_id, descriptions⟩]
      let signature := calc_signature response_lots
      let out : WebhookOut := ⟨signature, "1.0.0", response_lots⟩
      { st with webhooks := st.webhooks ++ [(original_lot.webhook, out)] }
    else st

/-- Model of `_send_batch_webhook(lot_id, original_lot, batch_languages)`: filter out
immediate languages from the batch-processed ones, `MGET` the remaining
result keys, and if all are present post one webhook carrying exactly the
filtered languages. -/
def send_batch_webhook (st : PipeState) (lot_id : String)
    (original_lot : LotData) (batch_languages : List String) : PipeState :=
  let immediate_languages := original_lot.immediate_languages
  let filtered_languages :=
    batch_languages.filter (fun lang => !immediate_languages.contains lang)
  if filtered_languages.isEmpty then st
  else
    let results := filtered_languages.map
      (fun lang => rget st.results (resultKey lot_id lang))
    if results.all Option.isSome then
      let descriptions := (filtered_languages.zip results).map
        (fun p => DamageDesc.mk p.1 (p.2.getD ""))
      let response_lots := [LotPayload.ok ⟨lot_id, descriptions⟩]
      let signature := calc_signature response_lots
      let out : WebhookOut := ⟨signature, "1.0.0", response_lots⟩
      { st with webhooks := st.webhooks ++ [(original_lot.webhook, out)] }
    else st

/-! ### Completion handler (`tasks.py`, `_handle_completed_batch_async`) -/

/-- One success line of a vision batch: store the English Partial Result,
enqueue one translation Work Unit per requested non-`en` language (carrying
the analysis text as source), then run the completeness check. -/
def handle_vision_line (custom_id_map : List (String × TaskData))
    (st : PipeState) (line : String × String) : PipeState :=
  let lot_id := line.1
  let html_en := line.2
  let original_lot := getVisionLot custom_id_map lot_id
  let st1 := { st with results := rset st.results (resultKey lot_id "en") html_en }
  let new_tasks := (original_lot.languages.filter (fun lang => lang != "en")).map
    (fun lang => TranslateTask.mk ("tr:" ++ lot_id ++ ":" ++ lang) html_en lang original_lot)
  let st2 := { st1 with translate_queue := st1.translate_queue ++ new_tasks }
  check_and_send_webhook_if_ready st2 lot_id original_lot

/-- Accumulator mirroring the `lot_results` dict of the translate branch:
insertion-ordered lot ids, each with its appended language list and the
`original_lot` captured at first insertion. -/
def add_lot_result (acc : List (String × (List String × LotData)))
    (lot_id lang : String) (original_lot : LotData) :
    List (String × (List String × LotData)) :=
  if (acc.find? (fun p => p.1 == lot_id)).isSome then
    acc.map (fun p =>
      if p.1 == lot_id then (p.1, (p.2.1 ++ [lang], p.2.2)) else p)
  else acc ++ [(lot_id, ([lang], original_lot))]

/-- The translate branch: store every translated Partial Result, group the
lines by lot id, then send one batch webhook per lot. -/
def handle_translate_lines (custom_id_map : List (String × TaskData))
    (st : PipeState) (lines : List (String × String)) : PipeState :=
  let step := fun (acc : PipeState × List (String × (List String × LotData)))
      (line : String × String) =>
    let parts := splitCustomId line.1
    let lot_id := parts.1
    let lang := parts.2
    let st1 := { acc.1 with
      results := rset acc.1.results (resultKey lot_id lang) line.2 }
    let original_lot := getOriginalLot custom_id_map line.1
    (st1, add_lot_result acc.2 lot_id lang original_lot)
  let folded := lines.foldl step (st, [])
  folded.2.foldl
    (fun s p => send_batch_webhook s p.1 p.2.2 p.2.1) folded.1

/-- One line of the error output file, after the source's defaulting:
`custom_id` is `""` when absent (falsy, skipped) and `message` is the
extracted error message (already defaulted to `"Unknown processing error"`
by the `.get` chain). -/
structure ErrorLine where
  custom_id : String
  message : String
deriving Repr, DecidableEq

/-- One error line: synthesize a terminal failure payload for that one
identifier and post it to the lot's own webhook; lines with no custom id, an
untracked custom id or no webhook field are skipped. -/
def handle_error_line (custom_id_map : List (String × TaskData))
    (st : PipeState) (line : ErrorLine) : PipeState :=
  if line.custom_id == "" then st
  else
    match lookupTask custom_id_map line.custom_id with
    | none => st
    | some td =>
        if td.webhookField == "" then st
        else
          let response_lots :=
            [LotPayload.failed line.custom_id line.message "processing_failed"]
          let signature := calc_signature response_lots
          let out : WebhookOut := ⟨signature, "1.0.0", response_lots⟩
          { st with webhooks := st.webhooks ++ [(td.webhookField, out)] }

/-- What the external service returns for a finished batch: the parsed
success lines (`custom_id → parsed text`, the items of the source's
line-keyed dict) when an output file exists, and the error lines when an
error file exists. -/
structure BatchFetch where
  output_lines : Option (List (String × String))
  error_lines : Option (List ErrorLine)
deriving Repr, DecidableEq

/-- Model of `_handle_completed_batch_async(batch_id, status)`: decrement the shared
active-batch counter first, return if the bookkeeping key is gone, otherwise
process the success stream (per job type), then the error stream, then
delete the bookkeeping key unconditionally. -/
def handle_completed_batch (st : PipeState) (batch_id : String)
    (_status : String) (fetch : BatchFetch) : PipeState :=
  let st0 := { st with active_batch_count := st.active_batch_count - 1 }
  match lookupBatch st0.batch_maps batch_id with
  | none => st0
  | some record =>
      let st1 :=
        match fetch.output_lines with
        | none => st0
        | some lines =>
            match record.job_type with
            | JobType.vision =>
                lines.foldl (handle_vision_line record.custom_id_map) st0
            | JobType.translate =>
                handle_translate_lines record.custom_id_map st0 lines
      let st2 :=
        match fetch.error_lines with
        | none => st1
        | some error_lines =>
            error_lines.foldl (handle_error_line record.custom_id_map) st1
      { st2 with
        batch_maps := st2.batch_maps.filter (fun p => p.1 != batch_id) }

/-! ### Bulk Job Poller (`tasks.py`, `_check_batch_status_async`) -/

/-- Result of `retrieve_batch` for one id: a transport error (a raised
exception collected by `asyncio.gather(..., return_exceptions=True)`) or a
status string. -/
inductive PollResult where
  | transport_error
  | polled (status : String)
deriving Repr, DecidableEq

def terminal_statuses : List String :=
  ["completed", "failed", "expired", "cancelled"]

/-- One poller pass: for every tracked batch id, a transport error deletes
the bookkeeping key on the spot, a terminal status schedules completion
handling (returned as the list of `handle_completed_batch.delay` calls), and
any other status leaves the job tracked. -/
def check_batch_status (st : PipeState) (poll : String → PollResult) :
    PipeState × List (String × String) :=
  let active_batch_ids := st.batch_maps.map (fun p => p.1)
  active_batch_ids.foldl
    (fun acc batch_id =>
      match poll batch_id with
      | PollResult.transport_error =>
          ({ acc.1 with
             batch_maps := acc.1.batch_maps.filter (fun p => p.1 != batch_id) },
           acc.2)
      | PollResult.polled s =>
          if terminal_statuses.contains s then (acc.1, acc.2 ++ [(batch_id, s)])
          else acc)
    (st, [])

/-! ### Dispatch (`tasks.py`, `_process_queue_async` and `orchestrator_task`)

`_process_queue_async` pops up to `settings.max_lines_per_batch` tasks from
the chosen queue, builds one submission line per task (body construction is
external), and if any were popped starts the bulk job, increments
`active_batch_count` and stores the correlation map.  The id assigned by the
external service is an oracle input.
-/

def process_queue (st : PipeState) (job_type : JobType)
    (new_batch_id : String) : PipeState :=
  match job_type with
  | JobType.translate =>
      let drained := st.translate_queue.take settings.max_lines_per_batch
      let st1 := { st with
        translate_queue := st.translate_queue.drop settings.max_lines_per_batch }
      if drained.isEmpty then st1
      else
        { st1 with
          active_batch_count := st1.active_batch_count + 1
          batch_maps := st1.batch_maps ++
            [(new_batch_id,
              ⟨JobType.translate,
               drained.map (fun t => (t.custom_id, TaskData.translateTask t))⟩)] }
  | JobType.vision =>
      let drained := st.vision_queue.take settings.max_lines_per_batch
      let st1 := { st with
        vision_queue := st.vision_queue.drop settings.max_lines_per_batch }
      if drained.isEmpty then st1
      else
        { st1 with
          active_batch_count := st1.active_batch_count + 1
          batch_maps := st1.batch_maps ++
            [(new_batch_id,
              ⟨JobType.vision,
               drained.map (fun lot => (lot.lot_id, TaskData.visionTask lot))⟩)] }

/-- Model of `orchestrator_task()`: read both queue depths, persist the computed
interval, self-throttle against `dynamic_batch_last_run`, record the new
last-run time, exit if the active-batch ceiling is saturated, and otherwise
drain the translate queue when it is non-empty, else the vision queue when
it is non-empty.  Returns the state and the stage drained (if any). -/
def orchestrator_task (st : PipeState) (now : Rat) (new_batch_id : String) :
    PipeState × Option JobType :=
  let translate_queue_depth := st.translate_queue.length
  let vision_queue_depth := st.vision_queue.length
  let total_queue_depth := translate_queue_depth + vision_queue_depth
  let dynamic_interval := calculate_dynamic_interval total_queue_depth
  let st0 := { st with current_interval := some dynamic_interval }
  let last_run := st0.last_run.getD 0
  if now - last_run < dynamic_interval then (st0, none)
  else
    let st1 := { st0 with last_run := some now }
    if (settings.active_batch_limit : Int) ≤ st1.active_batch_count then
      (st1, none)
    else if 0 < translate_queue_depth then
      (process_queue st1 JobType.translate new_batch_id, some JobType.translate)
    else if 0 < vision_queue_depth then
      (process_queue st1 JobType.vision new_batch_id, some JobType.vision)
    else (st1, none)

/-! ### Concrete scenes used by counterexample / code-bug theorems -/

/-- A batch-path item requesting `{en, fr, de}` with no immediate fast-path
languages. -/
def c1_lot : LotData :=
  ⟨"l1", "http://callback.example/hook", ["en", "fr", "de"], []⟩

/-- One open vision batch `b1` covering `c1_lot`. -/
def c1_st0 : PipeState :=
  ⟨[], [], [], 1,
   [("b1", ⟨JobType.vision, [("l1", TaskData.visionTask c1_lot)]⟩)],
   none, none, []⟩

/-- After completion of the vision batch (successful analysis line). -/
def c1_st1 : PipeState :=
  handle_completed_batch c1_st0 "b1" "completed"
    ⟨some [("l1", "analysis-text")], none⟩

/-- After the orchestrator drains the two fanned-out translation units into
bulk job `b2`. -/
def c1_st2 : PipeState := process_queue c1_st1 JobType.translate "b2"

/-- After completion of the translation batch with both `fr` and `de`
successful. -/
def c1_st3 : PipeState :=
  handle_completed_batch c1_st2 "b2" "completed"
    ⟨some [("tr:l1:fr", "texte-fr"), ("tr:l1:de", "text-de")], none⟩

/-- Split-batch variant: the `fr` translation unit alone was drained into
bulk job `bf`; `en` is stored, `de` is still pending. -/
def c1_frTask : TranslateTask := ⟨"tr:l1:fr", "analysis-text", "fr", c1_lot⟩

def c1_stX : PipeState :=
  ⟨[("result:l1:en", "analysis-text")], [], [], 1,
   [("bf", ⟨JobType.translate, [("tr:l1:fr", TaskData.translateTask c1_frTask)]⟩)],
   none, none, []⟩

/-- After completion of the `fr`-only translation batch. -/
def c1_stY : PipeState :=
  handle_completed_batch c1_stX "bf" "completed"
    ⟨some [("tr:l1:fr", "texte-fr")], none⟩

/-- A tracked open bulk job `batch_1` while the shared counter sits at the
configured ceiling of 10. -/
def c2_lot : LotData := ⟨"l9", "http://callback.example/hook", ["en"], []⟩

def c2_st : PipeState :=
  ⟨[], [], [c2_lot], 10,
   [("batch_1", ⟨JobType.vision, [("l9", TaskData.visionTask c2_lot)]⟩)],
   none, none, []⟩

/-- A poll pass in which `retrieve_batch` raises for every job. -/
def c2_poll : String → PollResult := fun _ => PollResult.transport_error

def c2_after : PipeState := (check_batch_status c2_st c2_poll).1

/-- Orchestrator scene: one queued translation unit, last dispatch recorded
at t = 70, tick at t = 100 — elapsed time equals the 30 s interval
exactly. -/
def c7_task : TranslateTask :=
  ⟨"tr:l1:fr", "text", "fr", ⟨"l1", "http://callback.example/hook", ["en", "fr"], []⟩⟩

def c7_st : PipeState := ⟨[], [c7_task], [], 0, [], some 70, none, []⟩

/-- Orchestrator scene with no recorded last dispatch and one queued
translation unit. -/
def c7_wit_st : PipeState := ⟨[], [c7_task], [], 0, [], none, none, []⟩

/-- A callback endpoint that fails every attempt. -/
def failAll : Nat → HttpOutcome := fun _ => HttpOutcome.status 500

/-- A callback endpoint that fails twice, then succeeds. -/
def failTwice : Nat → HttpOutcome :=
  fun n => if n < 2 then HttpOutcome.status 500 else HttpOutcome.status 200

/-! ## Theorems -/

/-! ### Admission limiter lemmas -/

theorem register_ok_elim {s s2 : LimiterState} {k b : String}
    (h : register s k b = Except.ok s2) :
    s.glob.card < settings.active_batch_limit ∧
    (s.by_key k).card < settings.per_key_batch_limit ∧
    s2.glob = insert b s.glob ∧
    s2.by_key = fun k2 =>
      if k2 = k then insert b (s.by_key k2) else s.by_key k2 := by
  unfold register at h
  split_ifs at h with h1 h2
  · injection h with h3
    refine ⟨by omega, by omega, ?_, ?_⟩ <;> rw [← h3]

theorem register_error_of_full {s : LimiterState} {k b : String}
    (h : settings.active_batch_limit ≤ s.glob.card ∨
         settings.per_key_batch_limit ≤ (s.by_key k).card) :
    ∃ e, register s k b = Except.error e := by
  unfold register
  split_ifs with h1 h2
  · exact ⟨_, rfl⟩
  · exact ⟨_, rfl⟩
  · omega

theorem applyOp_limiterInv {s : LimiterState} (op : LimiterOp)
    (h : limiterInv s) : limiterInv (applyOp s op) := by
  cases op with
  | reg k b =>
      simp only [applyOp]
      cases hr : register s k b with
      | error e => exact h
      | ok s2 =>
          obtain ⟨h1, h2, hg, hk⟩ := register_ok_elim hr
          constructor
          · rw [hg]
            have := Finset.card_insert_le b s.glob
            omega
          · intro k2
            rw [hk]
            by_cases hkk : k2 = k
            · subst hkk
              simp only [eq_self_iff_true, if_true]
              have := Finset.card_insert_le b (s.by_key k2)
              omega
            · simpa [hkk] using h.2 k2
  | fin k b =>
      constructor
      · exact le_trans (Finset.card_erase_le) h.1
      · intro k2
        by_cases hkk : k2 = k
        · subst hkk
          simpa [applyOp, finish] using
            le_trans (Finset.card_erase_le) (h.2 k2)
        · simpa [applyOp, finish, hkk] using h.2 k2

theorem runOps_limiterInv (ops : List LimiterOp) :
    ∀ s : LimiterState, limiterInv s → limiterInv (runOps s ops) := by
  induction ops with
  | nil => intro s h; exact h
  | cons op rest ih =>
      intro s h
      exact ih (applyOp s op) (applyOp_limiterInv op h)

/-- C3: `register(caller_key, job_id)` succeeds iff both the global and the
caller's open-job counts are strictly below their ceilings; otherwise it
fails with the HTTP 429 capacity condition carrying the Retry-After 60 hint
and (as an exception) leaves the state unchanged; consequently the
global/per-key ceilings are invariants of any register/finish sequence, a
scope at its ceiling rejects the next registration, and a finish of an open
job re-enables registration for a per-key-saturated scope. -/
theorem claim_C3_register_admission :
    (∀ (s : LimiterState) (k b : String),
      (∃ s2, register s k b = Except.ok s2) ↔
        (s.glob.card < settings.active_batch_limit ∧
         (s.by_key k).card < settings.per_key_batch_limit)) ∧
    (∀ (s : LimiterState) (k b : String) (e : CapacityErr),
      register s k b = Except.error e →
        e.http_status = 429 ∧ e.retry_after = 60 ∧
        applyOp s (LimiterOp.reg k b) = s) ∧
    (∀ (s : LimiterState) (ops : List LimiterOp),
      limiterInv s → limiterInv (runOps s ops)) ∧
    (∀ (s : LimiterState) (k b : String),
      (s.glob.card = settings.active_batch_limit ∨
       (s.by_key k).card = settings.per_key_batch_limit) →
      ∃ e, register s k b = Except.error e) ∧
    (∀ (s : LimiterState) (k b b2 : String),
      (s.by_key k).card = settings.per_key_batch_limit →
      s.glob.card < settings.active_batch_limit →
      b2 ∈ s.by_key k →
      ∃ s2, register (finish s k b2) k b = Except.ok s2) := by
  refine ⟨?_, ?_, ?_, ?_, ?_⟩
  · intro s k b
    constructor
    · rintro ⟨s2, h⟩
      obtain ⟨h1, h2, -, -⟩ := register_ok_elim h
      exact ⟨h1, h2⟩
    · rintro ⟨h1, h2⟩
      unfold register
      rw [if_neg (by omega), if_neg (by omega)]
      exact ⟨_, rfl⟩
  · intro s k b e h
    have he : e.http_status = 429 ∧ e.retry_after = 60 := by
      unfold register at h
      split_ifs at h <;> · injection h with h3; rw [← h3]; exact ⟨rfl, rfl⟩
    refine ⟨he.1, he.2, ?_⟩
    simp only [applyOp, h]
  · intro s ops h
    exact runOps_limiterInv ops s h
  · intro s k b h
    exact register_error_of_full (by omega)
  · intro s k b b2 hcard hglob hmem
    have hg2 : (finish s k b2).glob.card < settings.active_batch_limit :=
      lt_of_le_of_lt Finset.card_erase_le hglob
    have hk2 : ((finish s k b2).by_key k).card < settings.per_key_batch_limit := by
      have hfin : (finish s k b2).by_key k = (s.by_key k).erase b2 := by
        simp [finish]
      have herase : ((s.by_key k).erase b2).card = (s.by_key k).card - 1 :=
        Finset.card_erase_of_mem hmem
      have hpos : 0 < settings.per_key_batch_limit := by norm_num [settings]
      rw [hfin, herase]
      omega
    unfold register
    rw [if_neg (by omega), if_neg (by omega)]
    exact ⟨_, rfl⟩

/-- Witness for C3: from the empty limiter a registration succeeds; with the
per-key scope `"k"` at its ceiling of 2 the next registration fails; after a
`finish` of one of the two open jobs the registration succeeds again. -/
theorem claim_C3_register_admission_witness :
    (∃ s2, register ⟨∅, fun _ => ∅⟩ "k" "b" = Except.ok s2) ∧
    (∃ e, register ⟨{"x"}, fun _ => {"b1", "b2"}⟩ "k" "b3" =
      Except.error e) ∧
    (∃ s2, register
      (finish ⟨{"x"}, fun _ => {"b1", "b2"}⟩ "k" "b2") "k" "b3" =
        Except.ok s2) := by
  refine ⟨?_, ?_, ?_⟩
  · exact (claim_C3_register_admission.1 ⟨∅, fun _ => ∅⟩ "k" "b").mpr
      (by constructor <;> decide)
  · exact claim_C3_register_admission.2.2.2.1 ⟨{"x"}, fun _ => {"b1", "b2"}⟩
      "k" "b3" (Or.inr (by decide))
  · exact claim_C3_register_admission.2.2.2.2 ⟨{"x"}, fun _ => {"b1", "b2"}⟩
      "k" "b3" "b2" (by decide) (by decide) (by decide)

/-- C4: the scheduler's interval function is monotone non-increasing in the
queue depth and takes exactly the configured step values on the configured
tiers, boundaries inclusive on the lower tier: 30 s for depth ≤ 100
(including 0 and 100), 10 s for 100 < depth ≤ 1000 (including 101 and
1000), 5 s for depth > 1000 (including 1001). -/
theorem claim_C4_interval_steps :
    (∀ d1 d2 : Nat, d1 ≤ d2 →
      calculate_dynamic_interval d2 ≤ calculate_dynamic_interval d1) ∧
    (∀ d : Nat, d ≤ 100 → calculate_dynamic_interval d = 30) ∧
    (∀ d : Nat, 100 < d → d ≤ 1000 → calculate_dynamic_interval d = 10) ∧
    (∀ d : Nat, 1000 < d → calculate_dynamic_interval d = 5) ∧
    calculate_dynamic_interval 0 = 30 ∧
    calculate_dynamic_interval 100 = 30 ∧
    calculate_dynamic_interval 101 = 10 ∧
    calculate_dynamic_interval 1000 = 10 ∧
    calculate_dynamic_interval 1001 = 5 := by
  have h30 : ∀ d : Nat, d ≤ 100 → calculate_dynamic_interval d = 30 := by
    intro d hd
    unfold calculate_dynamic_interval
    rw [if_neg (by omega), if_neg (by omega)]
  have h10 : ∀ d : Nat, 100 < d → d ≤ 1000 → calculate_dynamic_interval d = 10 := by
    intro d hd1 hd2
    unfold calculate_dynamic_interval
    rw [if_neg (by omega), if_pos (by omega)]
  have h5 : ∀ d : Nat, 1000 < d → calculate_dynamic_interval d = 5 := by
    intro d hd
    unfold calculate_dynamic_interval
    rw [if_pos (by omega)]
  refine ⟨?_, h30, h10, h5, h30 0 (by omega), h30 100 (by omega),
    h10 101 (by omega) (by omega), h10 1000 (by omega) (by omega),
    h5 1001 (by omega)⟩
  intro d1 d2 h
  rcases Nat.lt_or_ge 1000 d1 with h1 | h1
  · rw [h5 d1 h1, h5 d2 (by omega)]
  · rcases Nat.lt_or_ge 100 d1 with h2 | h2
    · rw [h10 d1 h2 h1]
      rcases Nat.lt_or_ge 1000 d2 with h3 | h3
      · rw [h5 d2 h3]; norm_num
      · rw [h10 d2 (by omega) h3]
    · rw [h30 d1 h2]
      rcases Nat.lt_or_ge 1000 d2 with h3 | h3
      · rw [h5 d2 h3]; norm_num
      · rcases Nat.lt_or_ge 100 d2 with h4 | h4
        · rw [h10 d2 h4 h3]; norm_num
        · rw [h30 d2 h4]

/-- Witness for C4: a deeper queue never slows the cadence — at depth 1500
the interval is no longer than at depth 7. -/
theorem claim_C4_interval_steps_witness :
    calculate_dynamic_interval 1500 ≤ calculate_dynamic_interval 7 :=
  claim_C4_interval_steps.1 7 1500 (by omega)

/-- C9: `finish(caller_key, job_id)` removes the job id from the global set
and from the caller's set unconditionally and touches nothing else; removing
an absent id is a no-op; and finishing twice with the same id equals
finishing once. -/
theorem claim_C9_finish_idempotent :
    (∀ (s : LimiterState) (k b : String),
      (finish s k b).glob = s.glob.erase b ∧
      (finish s k b).by_key k = (s.by_key k).erase b ∧
      ∀ k2, k2 ≠ k → (finish s k b).by_key k2 = s.by_key k2) ∧
    (∀ (s : LimiterState) (k b : String),
      b ∉ s.glob → b ∉ s.by_key k → finish s k b = s) ∧
    (∀ (s : LimiterState) (k b : String),
      finish (finish s k b) k b = finish s k b) := by
  refine ⟨?_, ?_, ?_⟩
  · intro s k b
    refine ⟨rfl, by simp [finish], ?_⟩
    intro k2 hk2
    simp [finish, hk2]
  · intro s k b hg hk
    cases s with
    | mk glob by_key =>
        simp only [finish, LimiterState.mk.injEq]
        constructor
        · exact Finset.erase_eq_of_not_mem hg
        · funext k2
          by_cases hkk : k2 = k
          · subst hkk
            simp [Finset.erase_eq_of_not_mem hk]
          · simp [hkk]
  · intro s k b
    simp only [finish, LimiterState.mk.injEq]
    constructor
    · exact Finset.erase_idem
    · funext k2
      by_cases hkk : k2 = k <;> simp [hkk, Finset.erase_idem]

/-- Witness for C9: finishing an id that was never registered leaves the
empty limiter unchanged. -/
theorem claim_C9_finish_idempotent_witness :
    finish ⟨{"other"}, fun _ => ∅⟩ "k" "b" = ⟨{"other"}, fun _ => ∅⟩ :=
  claim_C9_finish_idempotent.2.1 ⟨{"other"}, fun _ => ∅⟩ "k" "b"
    (by decide) (by decide)

/-! ### Batch size ceilings -/

theorem assert_batch_limits_none_elim {size count : Nat} {lines : List String}
    (h : assert_batch_limits size count lines = none) :
    count ≤ settings.max_lines_per_batch ∧
    size ≤ settings.file_size_limit ∧
    ∀ line ∈ lines, line.utf8ByteSize ≤ settings.line_size_limit := by
  unfold assert_batch_limits at h
  split_ifs at h with h1 h2 h3
  refine ⟨by omega, by omega, ?_⟩
  intro l hl
  by_contra hlt
  exact h3 (List.any_eq_true.mpr ⟨l, hl, by simpa using by omega⟩)

/-- C5: a submission whose fully serialised representation violates any
configured ceiling — cumulative `.jsonl` byte size (each serialised line
plus its newline) over the total byte ceiling, an individual serialised
line over the per-line byte ceiling, or too many lines — makes
`start_batch` fail with a batch-too-large condition before any side effect:
no file upload and no bulk-job creation occurs.  Conversely, a successful
submission respects all three ceilings, and the size that is checked is by
definition the byte size of the full serialised representation. -/
theorem claim_C5_batch_too_large :
    (∀ (serialized_lines : List String) (bid : String),
      (settings.file_size_limit < jsonl_size serialized_lines ∨
       (∃ line ∈ serialized_lines,
          settings.line_size_limit < line.utf8ByteSize) ∨
       settings.max_lines_per_batch < serialized_lines.length) →
      ∃ e, start_batch serialized_lines bid = Except.error e) ∧
    (∀ (serialized_lines : List String) (bid : String)
        (res : String × List BatchAction),
      start_batch serialized_lines bid = Except.ok res →
      jsonl_size serialized_lines ≤ settings.file_size_limit ∧
      (∀ line ∈ serialized_lines,
        line.utf8ByteSize ≤ settings.line_size_limit) ∧
      serialized_lines.length ≤ settings.max_lines_per_batch ∧
      res = (bid, [BatchAction.upload_file, BatchAction.create_batch bid])) ∧
    (∀ serialized_lines : List String,
      jsonl_size serialized_lines =
        (serialized_lines.map (fun line => line.utf8ByteSize + 1)).sum) := by
  refine ⟨?_, ?_, fun _ => rfl⟩
  · intro lines bid h
    unfold start_batch
    cases hA : assert_batch_limits (jsonl_size lines) lines.length lines with
    | some e => exact ⟨e, rfl⟩
    | none =>
        obtain ⟨h1, h2, h3⟩ := assert_batch_limits_none_elim hA
        rcases h with h | ⟨l, hl, hlt⟩ | h
        · omega
        · exact absurd (h3 l hl) (by omega)
        · omega
  · intro lines bid res h
    unfold start_batch at h
    cases hA : assert_batch_limits (jsonl_size lines) lines.length lines with
    | some e => rw [hA] at h; cases h
    | none =>
        rw [hA] at h
        obtain ⟨h1, h2, h3⟩ := assert_batch_limits_none_elim hA
        injection h with h4
        exact ⟨h2, h3, h1, h4.symm⟩

/-- Witness for C5: draining 50001 lines exceeds the 50000-line ceiling, so
the whole submission is rejected and nothing is uploaded. -/
theorem claim_C5_batch_too_large_witness :
    ∃ e, start_batch (List.replicate 50001 "x") "b1" = Except.error e :=
  claim_C5_batch_too_large.1 (List.replicate 50001 "x") "b1"
    (Or.inr (Or.inr (by norm_num [settings, List.length_replicate])))

/-! ### Callback delivery -/

theorem post_webhook_from_all_fail (oc : Nat → HttpOutcome) :
    ∀ (n a : Nat), (∀ j, j < n → is2xx (oc (a + j)) = false) →
      post_webhook_from oc a n =
        ⟨n, (List.range n).map (fun j => backoff (a + j)), false⟩ := by
  intro n
  induction n with
  | zero => intro a _; rfl
  | succ m ih =>
      intro a h
      have h0 : is2xx (oc a) = false := by simpa using h 0 (Nat.succ_pos m)
      unfold post_webhook_from
      rw [if_neg (by simp [h0])]
      have hs : ∀ j, j < m → is2xx (oc (a + 1 + j)) = false := by
        intro j hj
        have := h (j + 1) (by omega)
        rwa [show a + (j + 1) = a + 1 + j by omega] at this
      rw [ih (a + 1) hs]
      have hadd : ∀ j, a + 1 + j = a + (j + 1) := fun j => by omega
      simp [List.range_succ_eq_map, List.map_map, Function.comp, hadd]

theorem post_webhook_from_success (oc : Nat → HttpOutcome) :
    ∀ (n a i : Nat), i < n → (∀ j, j < i → is2xx (oc (a + j)) = false) →
      is2xx (oc (a + i)) = true →
      post_webhook_from oc a n =
        ⟨i + 1, (List.range i).map (fun j => backoff (a + j)), true⟩ := by
  intro n
  induction n with
  | zero => intro a i hi _ _; omega
  | succ m ih =>
      intro a i hi hfail hsucc
      cases i with
      | zero =>
          unfold post_webhook_from
          rw [if_pos (by simpa using hsucc)]
          rfl
      | succ i2 =>
          have h0 : is2xx (oc a) = false := by
            simpa using hfail 0 (Nat.succ_pos i2)
          unfold post_webhook_from
          rw [if_neg (by simp [h0])]
          have hs : ∀ j, j < i2 → is2xx (oc (a + 1 + j)) = false := by
            intro j hj
            have := hfail (j + 1) (by omega)
            rwa [show a + (j + 1) = a + 1 + j by omega] at this
          have hsc : is2xx (oc (a + 1 + i2)) = true := by
            rwa [show a + 1 + i2 = a + (i2 + 1) by omega]
          rw [ih (a + 1) i2 (by omega) hs hsc]
          have hadd : ∀ j, a + 1 + j = a + (j + 1) := fun j => by omega
          simp [List.range_succ_eq_map, List.map_map, Function.comp, hadd]

theorem post_webhook_from_posts_le (oc : Nat → HttpOutcome) :
    ∀ (n a : Nat), (post_webhook_from oc a n).posts ≤ n := by
  intro n
  induction n with
  | zero => intro a; exact le_refl 0
  | succ m ih =>
      intro a
      unfold post_webhook_from
      by_cases h : is2xx (oc a) = true
      · rw [if_pos h]
        exact Nat.succ_le_succ (Nat.zero_le m)
      · rw [if_neg h]
        exact Nat.succ_le_succ (ih (a + 1))

/-- C8 counterexample: against an endpoint that always fails, the sleeps
awaited are `2 ^ attempt` seconds — `[1, 2, 4, 8, 16]` — so the very first
backoff delay is 1 s, not the configured base delay of 2 s: the delays do
not double *from the configured base value* as claimed (the configured
`base_delay` is never consulted by `backoff`). -/
theorem claim_C8_backoff_counterexample :
    (post_webhook failAll).sleeps = [1, 2, 4, 8, 16] ∧
    settings.base_delay = 2 ∧
    ¬ ((post_webhook failAll).sleeps.head?.map (fun n => (n : Rat)) =
       some settings.base_delay) := by
  refine ⟨rfl, rfl, ?_⟩
  intro h
  rw [show (post_webhook failAll).sleeps.head? = some 1 from rfl] at h
  have h1 : ((1 : Nat) : Rat) = settings.base_delay := by injection h
  norm_num [settings] at h1

/-- C8 (amended): `post_webhook` attempts the POST at most
`settings.max_retries` times; the first 2xx outcome stops the loop with
exactly that many POSTs issued (no duplicate POST after success); every
non-2xx outcome or raised exception counts toward the budget and is
followed by a backoff sleep of `2 ^ attempt` seconds (a hard-coded
geometric schedule starting at 1 s — the configured base delay is not
used — with a sleep also after the final failed attempt); and exhausting
the budget surfaces the delivery-failed error. -/
theorem claim_C8_delivery_retry :
    (∀ oc, (post_webhook oc).posts ≤ settings.max_retries) ∧
    (∀ (oc : Nat → HttpOutcome) (i : Nat), i < settings.max_retries →
      (∀ j, j < i → is2xx (oc j) = false) → is2xx (oc i) = true →
      post_webhook oc = ⟨i + 1, (List.range i).map backoff, true⟩) ∧
    (∀ oc : Nat → HttpOutcome,
      (∀ j, j < settings.max_retries → is2xx (oc j) = false) →
      post_webhook oc =
        ⟨settings.max_retries,
         (List.range settings.max_retries).map backoff, false⟩) ∧
    (∀ attempt, backoff attempt = 2 ^ attempt) := by
  refine ⟨?_, ?_, ?_, fun _ => rfl⟩
  · intro oc
    exact post_webhook_from_posts_le oc settings.max_retries 0
  · intro oc i hi hfail hsucc
    have h := post_webhook_from_success oc settings.max_retries 0 i hi
      (by intro j hj; simpa using hfail j hj) (by simpa using hsucc)
    simpa using h
  · intro oc h
    have h2 := post_webhook_from_all_fail oc settings.max_retries 0
      (by intro j hj; simpa using h j hj)
    simpa using h2

/-- Witness for C8: an endpoint failing twice then succeeding on the third
attempt yields exactly three POSTs, one successful delivery, and the two
backoff sleeps 1 s and 2 s. -/
theorem claim_C8_delivery_retry_witness :
    post_webhook failTwice = ⟨3, [1, 2], true⟩ := by
  have h := claim_C8_delivery_retry.2.1 failTwice 2
    (by norm_num [settings]) (by decide) (by decide)
  exact h

/-! ### Completion handler frame facts -/

theorem check_and_send_frame (st : PipeState) (lot_id : String)
    (orig : LotData) :
    (check_and_send_webhook_if_ready st lot_id orig).results = st.results ∧
    (check_and_send_webhook_if_ready st lot_id orig).translate_queue =
      st.translate_queue ∧
    (check_and_send_webhook_if_ready st lot_id orig).vision_queue =
      st.vision_queue ∧
    (check_and_send_webhook_if_ready st lot_id orig).active_batch_count =
      st.active_batch_count ∧
    (check_and_send_webhook_if_ready st lot_id orig).batch_maps =
      st.batch_maps := by
  simp only [check_and_send_webhook_if_ready]
  split_ifs <;> exact ⟨rfl, rfl, rfl, rfl, rfl⟩

theorem rget_rset_same (kvs : List (String × String)) (k v : String) :
    rget (rset kvs k v) k = some v := by
  simp [rget, rset, List.find?_cons_of_pos]

theorem handle_vision_line_eq (m : List (String × TaskData)) (st : PipeState)
    (lot_id html_en : String) :
    handle_vision_line m st (lot_id, html_en) =
      check_and_send_webhook_if_ready
        { st with
          results := rset st.results (resultKey lot_id "en") html_en
          translate_queue := st.translate_queue ++
            ((getVisionLot m lot_id).languages.filter
                (fun lang => lang != "en")).map
              (fun lang =>
                ⟨"tr:" ++ lot_id ++ ":" ++ lang, html_en, lang,
                 getVisionLot m lot_id⟩) }
        lot_id (getVisionLot m lot_id) := rfl

/-- C10: when the correlation-map bookkeeping key for a batch id is absent,
completion handling decrements the shared active-batch counter by one and
performs no other state change — no partial result written, no translation
unit enqueued, no webhook scheduled, no key deleted; since the counter is an
integer `DECR`ed unconditionally, it can drift below the true number of open
batches and below zero. -/
theorem claim_C10_missing_key_frame :
    ∀ (st : PipeState) (batch_id status : String) (fetch : BatchFetch),
      lookupBatch st.batch_maps batch_id = none →
      handle_completed_batch st batch_id status fetch =
        { st with active_batch_count := st.active_batch_count - 1 } := by
  intro st batch_id status fetch h
  simp only [handle_completed_batch, h]

/-- Witness for C10: handling a never-tracked batch id on a fresh state
drives the counter from 0 to -1, below zero, and changes nothing else. -/
theorem claim_C10_missing_key_frame_witness :
    handle_completed_batch ⟨[], [], [], 0, [], none, none, []⟩ "stray_batch"
        "completed" ⟨none, none⟩ =
      ⟨[], [], [], -1, [], none, none, []⟩ ∧
    (-1 : Int) < 0 :=
  ⟨claim_C10_missing_key_frame ⟨[], [], [], 0, [], none, none, []⟩
      "stray_batch" "completed" ⟨none, none⟩ rfl,
   by norm_num⟩

/-- C6: on a successful analysis line for an item requesting
`{en, fr, de}`, the completion handler stores the analysis text as the
item's `en` Partial Result and appends exactly two translation Work Units
to the translation queue — one for `fr` and one for `de`, each carrying the
analysis text as source — and no unit for `en`. -/
theorem claim_C6_fanout :
    ∀ (st : PipeState) (m : List (String × TaskData)) (lot : LotData)
      (lot_id html_en : String),
      lookupTask m lot_id = some (TaskData.visionTask lot) →
      lot.languages = ["en", "fr", "de"] →
      rget (handle_vision_line m st (lot_id, html_en)).results
          (resultKey lot_id "en") = some html_en ∧
      (handle_vision_line m st (lot_id, html_en)).translate_queue =
        st.translate_queue ++
          [⟨"tr:" ++ lot_id ++ ":" ++ "fr", html_en, "fr", lot⟩,
           ⟨"tr:" ++ lot_id ++ ":" ++ "de", html_en, "de", lot⟩] ∧
      ((handle_vision_line m st (lot_id, html_en)).translate_queue.map
          (fun t => t.lang)) =
        st.translate_queue.map (fun t => t.lang) ++ ["fr", "de"] := by
  intro st m lot lot_id html_en hm hlang
  have hg : getVisionLot m lot_id = lot := by
    unfold getVisionLot
    rw [hm]
  have hfilter : (lot.languages.filter (fun lang => lang != "en")) =
      ["fr", "de"] := by
    rw [hlang]
    rfl
  rw [handle_vision_line_eq, hg, hfilter]
  obtain ⟨hr, hq, -, -, -⟩ := check_and_send_frame
    { st with
      results := rset st.results (resultKey lot_id "en") html_en
      translate_queue := st.translate_queue ++
        (["fr", "de"].map
          (fun lang =>
            ⟨"tr:" ++ lot_id ++ ":" ++ lang, html_en, lang, lot⟩)) }
    lot_id lot
  rw [hr, hq]
  refine ⟨rget_rset_same _ _ _, rfl, by simp⟩

/-- Witness for C6: from an empty state, the analysis line for lot `l1`
stores `result:l1:en` and enqueues exactly the `fr` and `de` translation
units carrying the analysis text. -/
theorem claim_C6_fanout_witness :
    rget (handle_vision_line
        [("l1", TaskData.visionTask ⟨"l1", "http://cb", ["en", "fr", "de"], []⟩)]
        ⟨[], [], [], 0, [], none, none, []⟩ ("l1", "txt")).results
      (resultKey "l1" "en") = some "txt" ∧
    (handle_vision_line
        [("l1", TaskData.visionTask ⟨"l1", "http://cb", ["en", "fr", "de"], []⟩)]
        ⟨[], [], [], 0, [], none, none, []⟩ ("l1", "txt")).translate_queue =
      [⟨"tr:l1:fr", "txt", "fr", ⟨"l1", "http://cb", ["en", "fr", "de"], []⟩⟩,
       ⟨"tr:l1:de", "txt", "de", ⟨"l1", "http://cb", ["en", "fr", "de"], []⟩⟩] := by
  have h := claim_C6_fanout ⟨[], [], [], 0, [], none, none, []⟩
    [("l1", TaskData.visionTask ⟨"l1", "http://cb", ["en", "fr", "de"], []⟩)]
    ⟨"l1", "http://cb", ["en", "fr", "de"], []⟩ "l1" "txt" rfl rfl
  exact ⟨h.1, h.2.1⟩

/-- C1 (code bug): for the batch-path item `l1` requesting `{en, fr, de}`,
the pipeline stores all three Partial Results, and the vision-stage
completeness check correctly delivers nothing while translations are
missing; but the translation-stage completion sends its webhook through
`_send_batch_webhook`, which carries only the batch's own translated
languages — the single delivery contains exactly `[fr, de]` and the stored
`en` result is never delivered (count 0 across all deliveries, not 1 as the
claim requires).  In the split-batch variant, a webhook carrying `[fr]`
alone is even delivered while `de` is still absent, violating the
no-delivery-before-completeness half of the claim as well. -/
theorem claim_C1_correlation_code_bug :
    c1_st1.webhooks = [] ∧
    rget c1_st3.results (resultKey "l1" "en") = some "analysis-text" ∧
    rget c1_st3.results (resultKey "l1" "fr") = some "texte-fr" ∧
    rget c1_st3.results (resultKey "l1" "de") = some "text-de" ∧
    c1_st3.webhooks.map (fun p => p.2.langs) = [["fr", "de"]] ∧
    ((c1_st3.webhooks.map (fun p => p.2.langs)).flatten).count "en" = 0 ∧
    rget c1_stY.results (resultKey "l1" "de") = none ∧
    c1_stY.webhooks.map (fun p => p.2.langs) = [["fr"]] := by
  refine ⟨?_, ?_, ?_, ?_, ?_, ?_, ?_, ?_⟩ <;> decide

/-- C2 (code bug): a transport error while polling tracked job `batch_1`
deletes its bookkeeping key (the job is untracked and a later poller pass
retries nothing), but the shared `active_batch_count` used by the
orchestrator's admission check is not decremented: it stays at the ceiling
of 10, so the orchestrator refuses to dispatch forever — the orphaned job
keeps counting against the open-job limit, contrary to the claim. -/
theorem claim_C2_orphan_still_counts :
    c2_after.batch_maps = [] ∧
    (check_batch_status c2_st c2_poll).2 = [] ∧
    check_batch_status c2_after c2_poll = (c2_after, []) ∧
    c2_after.active_batch_count = 10 ∧
    (settings.active_batch_limit : Int) = 10 ∧
    (orchestrator_task c2_after 1000 "bX").2 = none ∧
    (orchestrator_task c2_after 1000 "bX").1.vision_queue = c2_after.vision_queue := by
  refine ⟨rfl, rfl, rfl, rfl, rfl, ?_, ?_⟩ <;>
    norm_num [orchestrator_task, c2_after, check_batch_status, c2_st, c2_poll,
      calculate_dynamic_interval, settings]

/-- C7 counterexample: with the last dispatch recorded at t = 70, a tick at
t = 100 sees an elapsed time of exactly the 30 s interval computed for
queue depth 1 — it does not strictly exceed it — yet the tick is not a
no-op: the orchestrator proceeds and drains the translation queue. -/
theorem claim_C7_orchestrator_counterexample :
    (100 : Rat) - (c7_st.last_run.getD 0) =
      calculate_dynamic_interval
        (c7_st.translate_queue.length + c7_st.vision_queue.length) ∧
    (orchestrator_task c7_st 100 "b7").2 = some JobType.translate ∧
    (orchestrator_task c7_st 100 "b7").1.translate_queue = [] := by
  refine ⟨?_, ?_, ?_⟩ <;>
    norm_num [c7_st, c7_task, orchestrator_task, calculate_dynamic_interval,
      settings, process_queue]

/-- C7 (amended): a tick is a no-op (no drain, no submission, only the
monitoring interval write) unless the elapsed wall-clock time since the
last recorded dispatch is at least (not strictly more than) the interval
computed from the current total queue depth; when it proceeds it records
the new dispatch time, exits without dispatching if the active-batch
ceiling is saturated, and otherwise drains the translation stage whenever
the translation queue is non-empty, draining the vision stage only when the
translation queue is empty, and nothing when both are empty. -/
theorem claim_C7_orchestrator :
    (∀ (st : PipeState) (now : Rat) (bid : String),
      now - st.last_run.getD 0 <
        calculate_dynamic_interval
          (st.translate_queue.length + st.vision_queue.length) →
      orchestrator_task st now bid =
        ({ st with current_interval := some (calculate_dynamic_interval
            (st.translate_queue.length + st.vision_queue.length)) }, none)) ∧
    (∀ (st : PipeState) (now : Rat) (bid : String),
      ¬ (now - st.last_run.getD 0 <
          calculate_dynamic_interval
            (st.translate_queue.length + st.vision_queue.length)) →
      (settings.active_batch_limit : Int) ≤ st.active_batch_count →
      orchestrator_task st now bid =
        ({ st with
            current_interval := some (calculate_dynamic_interval
              (st.translate_queue.length + st.vision_queue.length))
            last_run := some now }, none)) ∧
    (∀ (st : PipeState) (now : Rat) (bid : String),
      ¬ (now - st.last_run.getD 0 <
          calculate_dynamic_interval
            (st.translate_queue.length + st.vision_queue.length)) →
      st.active_batch_count < (settings.active_batch_limit : Int) →
      st.translate_queue ≠ [] →
      (orchestrator_task st now bid).2 = some JobType.translate) ∧
    (∀ (st : PipeState) (now : Rat) (bid : String),
      ¬ (now - st.last_run.getD 0 <
          calculate_dynamic_interval
            (st.translate_queue.length + st.vision_queue.length)) →
      st.active_batch_count < (settings.active_batch_limit : Int) →
      st.translate_queue = [] → st.vision_queue ≠ [] →
      (orchestrator_task st now bid).2 = some JobType.vision) ∧
    (∀ (st : PipeState) (now : Rat) (bid : String),
      ¬ (now - st.last_run.getD 0 <
          calculate_dynamic_interval
            (st.translate_queue.length + st.vision_queue.length)) →
      st.active_batch_count < (settings.active_batch_limit : Int) →
      st.translate_queue = [] → st.vision_queue = [] →
      orchestrator_task st now bid =
        ({ st with
            current_interval := some (calculate_dynamic_interval
              (st.translate_queue.length + st.vision_queue.length))
            last_run := some now }, none)) := by
  refine ⟨?_, ?_, ?_, ?_, ?_⟩
  · intro st now bid h
    simp only [orchestrator_task]
    rw [if_pos h]
  · intro st now bid h hsat
    simp only [orchestrator_task]
    rw [if_neg h, if_pos hsat]
  · intro st now bid h hcap htq
    simp only [orchestrator_task]
    rw [if_neg h, if_neg (by omega), if_pos (List.length_pos.mpr htq)]
  · intro st now bid h hcap htq hvq
    simp only [orchestrator_task]
    rw [if_neg h, if_neg (by omega),
      if_neg (by simp [htq]), if_pos (List.length_pos.mpr hvq)]
  · intro st now bid h hcap htq hvq
    simp only [orchestrator_task]
    rw [if_neg h, if_neg (by omega),
      if_neg (by simp [htq]), if_neg (by simp [hvq])]

/-- Witness for C7: with no recorded last dispatch (treated as t = 0), a
tick at t = 50 with one queued translation unit and a free ceiling drains
the translation stage. -/
theorem claim_C7_orchestrator_witness :
    (orchestrator_task c7_wit_st 50 "b8").2 = some JobType.translate :=
  claim_C7_orchestrator.2.2.1 c7_wit_st 50 "b8"
    (by norm_num [c7_wit_st, calculate_dynamic_interval])
    (by norm_num [c7_wit_st, settings])
    (by simp [c7_wit_st])

end AutoDev
